import Mathlib

/-!
Verification development for the gi widget toolkit: the 2D widget lifecycle
(render / re-render / move passes, style resolution) and the gi3d mesh buffer
pipeline.  Go float32 values are modelled as exact rationals, machine integers
as Int/Nat, Go runtime panics as explicit error values, and fallible Go calls
as Option/Except results.
-/

namespace GiSpec

/-- Go float32, modelled as an exact rational. -/
abbrev F32 := ℚ

/-- A Go runtime panic, surfaced as an explicit failure value of the model. -/
inductive GoPanic where
  /-- method call through a nil interface value -/
  | nilInterfaceDeref
  /-- reflect.Value.Convert between inconvertible types -/
  | convertPanic
  /-- reflect.Value.Set with an invalid (zero) reflect.Value argument -/
  | zeroValueSet
deriving DecidableEq, Repr

/-! ## gi3d mesh buffer pipeline (src/unnamed/part_001) -/

/-- mat32.Dims: a dimension selector. -/
inductive Dims where
  | X
  | Y
  | Z
deriving DecidableEq, Repr

/-- mat32.Vec3. -/
structure Vec3 where
  x : F32
  y : F32
  z : F32
deriving DecidableEq, Repr

/-- mat32.Vec3.SetDim. -/
def Vec3.setDim (v : Vec3) (d : Dims) (val : F32) : Vec3 :=
  match d with
  | Dims.X => { v with x := val }
  | Dims.Y => { v with y := val }
  | Dims.Z => { v with z := val }

/-- mat32.Vec4. -/
structure Vec4 where
  x : F32
  y : F32
  z : F32
  w : F32
deriving DecidableEq, Repr

/-- Modelled from the spec: gi.Color is not under src; per part_001 a color is an
RGBA value and "if clr is non-Nil then it will be added", the zero value acting
as nil. -/
structure Color where
  r : ℕ
  g : ℕ
  b : ℕ
  a : ℕ
deriving DecidableEq, Repr

/-- Modelled from the spec: gi.Color.IsNil — the zero color is the nil color. -/
def Color.IsNil (c : Color) : Bool :=
  c.r = 0 && c.g = 0 && c.b = 0 && c.a = 0

/-- Modelled from the spec: gi3d.ColorToVec4f converts an RGBA color to a float
4-vector (components scaled to the unit interval). -/
def ColorToVec4f (c : Color) : Vec4 :=
  ⟨(c.r : ℚ) / 255, (c.g : ℚ) / 255, (c.b : ℚ) / 255, (c.a : ℚ) / 255⟩

/-- gpu draw-usage hint selected by the Dynamic flag in MakeVectors. -/
inductive DrawUsage where
  | staticDraw
  | dynamicDraw
deriving DecidableEq, Repr

/-- The four vertex-attribute vector roles used by the scene renders
(sc.Renders.Vectors indices InVtxPos, InVtxNorm, InVtxTexUV, InVtxColor). -/
inductive VectorRole where
  | inVtxPos
  | inVtxNorm
  | inVtxTexUV
  | inVtxColor
deriving DecidableEq, Repr

/-- gpu.VectorsBuffer (external GPU backend, spec section 6): the configured
attribute vectors (role and interleave flag), the element length, and the
per-role CPU-side staged data. -/
structure VectorsBuffer where
  usage : DrawUsage
  vectors : List (VectorRole × Bool)
  len : ℕ
  posData : List F32
  normData : List F32
  texData : List F32
  colorData : List F32
deriving DecidableEq, Repr

def VectorsBuffer.new (usg : DrawUsage) : VectorsBuffer :=
  ⟨usg, [], 0, [], [], [], []⟩

def VectorsBuffer.NumVectors (vb : VectorsBuffer) : ℕ := vb.vectors.length

def VectorsBuffer.DeleteAllVectors (vb : VectorsBuffer) : VectorsBuffer :=
  { vb with vectors := [] }

def VectorsBuffer.AddVectors (vb : VectorsBuffer) (role : VectorRole)
    (interleave : Bool) : VectorsBuffer :=
  { vb with vectors := vb.vectors ++ [(role, interleave)] }

def VectorsBuffer.SetLen (vb : VectorsBuffer) (n : ℕ) : VectorsBuffer :=
  { vb with len := n }

def VectorsBuffer.SetVecData (vb : VectorsBuffer) (role : VectorRole)
    (data : List F32) : VectorsBuffer :=
  match role with
  | VectorRole.inVtxPos => { vb with posData := data }
  | VectorRole.inVtxNorm => { vb with normData := data }
  | VectorRole.inVtxTexUV => { vb with texData := data }
  | VectorRole.inVtxColor => { vb with colorData := data }

/-- gpu.IndexesBuffer (external GPU backend). -/
structure IndexesBuffer where
  usage : DrawUsage
  len : ℕ
  data : List ℕ
deriving DecidableEq, Repr

def IndexesBuffer.new (usg : DrawUsage) : IndexesBuffer := ⟨usg, 0, []⟩

def IndexesBuffer.SetLen (ib : IndexesBuffer) (n : ℕ) : IndexesBuffer :=
  { ib with len := n }

def IndexesBuffer.set (ib : IndexesBuffer) (d : List ℕ) : IndexesBuffer :=
  { ib with data := d }

/-- gpu.BufferMgr: one vectors buffer and one indexes buffer, with an
activation mark for the current context. -/
structure BufferMgr where
  vbuf : VectorsBuffer
  ibuf : IndexesBuffer
  active : Bool
deriving DecidableEq, Repr

def BufferMgr.Activate (b : BufferMgr) : BufferMgr := { b with active := true }

/-- The ShapeInvalid error conditions Validate reports (spec section 7). -/
inductive MeshErr where
  /-- "mesh has no verticies" -/
  | noVerticies (name : String)
  /-- "number of Norms != Vtx" -/
  | normMismatch (name : String) (nln vln : ℕ)
  /-- "number of TexUV != Vtx" -/
  | texMismatch (name : String) (tln vln : ℕ)
  /-- "number of Colors != Vtx" -/
  | colorMismatch (name : String) (cln vln : ℕ)
deriving DecidableEq, Repr

/-- MeshBase (src/unnamed/part_001): named mesh with vertex, normal, texcoord,
index and optional color arrays, the Dynamic and Trans flags, and the lazily
allocated GPU buffer manager (nil modelled as none). -/
structure MeshBase where
  Nm : String
  Dynamic : Bool
  Trans : Bool
  Vtx : List F32
  Norm : List F32
  TexUV : List F32
  Idx : List ℕ
  Color : List F32
  Buff : Option BufferMgr
deriving DecidableEq, Repr

/-- MeshBase.HasColor: true if this mesh has vertex-specific colors available. -/
def MeshBase.HasColor (ms : MeshBase) : Bool :=
  ms.Color.length > 0

/-- MeshBase.IsTransparent: vertex colors available and flagged transparent. -/
def MeshBase.IsTransparent (ms : MeshBase) : Bool :=
  if !ms.HasColor then false else ms.Trans

/-- MeshBase.Reset: clear all of the vector and index data. -/
def MeshBase.Reset (ms : MeshBase) : MeshBase :=
  { ms with Vtx := [], Norm := [], TexUV := [], Idx := [], Color := [] }

/-- MeshBase.Validate (src/unnamed/part_001:189): checks the cross-array length
invariants; an error is returned (and logged) on the first violated check. -/
def MeshBase.Validate (ms : MeshBase) : Option MeshErr :=
  let vln := ms.Vtx.length / 3
  if vln = 0 then some (MeshErr.noVerticies ms.Nm)
  else
    let nln := ms.Norm.length / 3
    if nln ≠ vln then some (MeshErr.normMismatch ms.Nm nln vln)
    else
      let tln := ms.TexUV.length / 2
      if tln ≠ vln then some (MeshErr.texMismatch ms.Nm tln vln)
      else
        let cln := ms.Color.length / 4
        if cln = 0 then none
        else if cln ≠ vln then some (MeshErr.colorMismatch ms.Nm cln vln)
        else none

/-- MeshBase.MakeVectors (src/unnamed/part_001:222): validate, lazily allocate
the buffer manager (usage hint from the Dynamic flag), (re)establish the
attribute layout only when the attribute count changed, and stage the full
vertex and index arrays.  Returns the validation error, if any, alongside the
(possibly updated) mesh. -/
def MeshBase.MakeVectors (ms : MeshBase) : Option MeshErr × MeshBase :=
  match ms.Validate with
  | some err => (some err, ms)
  | none =>
    let bufs : VectorsBuffer × IndexesBuffer × Bool :=
      match ms.Buff with
      | none =>
        let usg := if ms.Dynamic then DrawUsage.dynamicDraw else DrawUsage.staticDraw
        (VectorsBuffer.new usg, IndexesBuffer.new DrawUsage.staticDraw, false)
      | some b => (b.vbuf, b.ibuf, b.active)
    let vbuf0 := bufs.1
    let ibuf0 := bufs.2.1
    let nvec := if ms.HasColor then 4 else 3
    let vbuf1 :=
      if vbuf0.NumVectors ≠ nvec then
        let vb := ((vbuf0.DeleteAllVectors.AddVectors VectorRole.inVtxPos true).AddVectors
          VectorRole.inVtxNorm true).AddVectors VectorRole.inVtxTexUV true
        if ms.HasColor then vb.AddVectors VectorRole.inVtxColor false else vb
      else vbuf0
    let vln := ms.Vtx.length / 3
    let vbuf2 := ((((vbuf1.SetLen vln).SetVecData VectorRole.inVtxPos ms.Vtx).SetVecData
      VectorRole.inVtxNorm ms.Norm).SetVecData VectorRole.inVtxTexUV ms.TexUV)
    let vbuf3 := if ms.HasColor then vbuf2.SetVecData VectorRole.inVtxColor ms.Color else vbuf2
    let ibuf1 := (ibuf0.SetLen ms.Idx.length).set ms.Idx
    (none, { ms with Buff := some ⟨vbuf3, ibuf1, bufs.2.2⟩ })

/-- MeshBase.Activate (src/unnamed/part_001:314): if the buffer manager was
never built, call MakeVectors — discarding its error — and then call
Buff.Activate() unconditionally.  When validation failed, Buff is still nil and
the method call through the nil interface panics. -/
def MeshBase.Activate (ms : MeshBase) : Except GoPanic MeshBase :=
  let ms1 := if ms.Buff.isNone then (ms.MakeVectors).2 else ms
  match ms1.Buff with
  | none => Except.error GoPanic.nilInterfaceDeref
  | some b => Except.ok { ms1 with Buff := some b.Activate }

/-- MeshBase.PlaneSize (src/unnamed/part_001:476): vertex count of one plane
grid, segments clamped to a minimum of 1. -/
def MeshBase.PlaneSize (_mb : MeshBase) (wsegs hsegs : ℤ) : ℤ :=
  let wsegs := max wsegs 1
  let hsegs := max hsegs 1
  (wsegs + 1) * (hsegs + 1)

/-- The inner loop body of the AddPlane vertex-generation pass: append one grid
vertex with its normal and uv coordinates, and its color when clr is non-nil. -/
def addPlaneVtxStep (waxis haxis w : Dims)
    (segWidth segHeight fwdir fhdir woff hoff zoff : F32) (wsegsN hsegsN : ℕ)
    (norm : Vec3) (clr : GiSpec.Color) (iy : ℕ) (msb : MeshBase) (ix : ℕ) :
    MeshBase :=
  let vtx := (((Vec3.mk 0 0 0).setDim waxis ((ix : ℚ) * segWidth * fwdir + woff)).setDim
    haxis ((iy : ℚ) * segHeight * fhdir + hoff)).setDim w zoff
  let msc := { msb with
    Vtx := msb.Vtx ++ [vtx.x, vtx.y, vtx.z],
    Norm := msb.Norm ++ [norm.x, norm.y, norm.z],
    TexUV := msb.TexUV ++ [(ix : ℚ) / (wsegsN : ℚ), 1 - (iy : ℚ) / (hsegsN : ℚ)] }
  if !clr.IsNil then
    { msc with Color := msc.Color ++
      [(ColorToVec4f clr).x, (ColorToVec4f clr).y, (ColorToVec4f clr).z, (ColorToVec4f clr).w] }
  else msc

/-- The inner loop body of the AddPlane index-generation pass: append the six
indices of one grid cell's two triangles. -/
def addPlaneIdxStep (wsegs1 idxSt : ℕ) (iy : ℕ) (msb : MeshBase) (ix : ℕ) :
    MeshBase :=
  let a := ix + wsegs1 * iy
  let b := ix + wsegs1 * (iy + 1)
  let c := (ix + 1) + wsegs1 * (iy + 1)
  let d := (ix + 1) + wsegs1 * iy
  { msb with Idx := msb.Idx ++
    [a + idxSt, b + idxSt, d + idxSt, b + idxSt, c + idxSt, d + idxSt] }

/-- The doubly nested vertex-generation loop of AddPlane: for iy below hsegs1
and ix below wsegs1, run addPlaneVtxStep. -/
def addPlaneVtxLoop (waxis haxis w : Dims)
    (segWidth segHeight fwdir fhdir woff hoff zoff : F32) (wsegsN hsegsN : ℕ)
    (norm : Vec3) (clr : GiSpec.Color) (wsegs1 hsegs1 : ℕ) (ms : MeshBase) :
    MeshBase :=
  (List.range hsegs1).foldl (fun msa iy =>
    (List.range wsegs1).foldl
      (addPlaneVtxStep waxis haxis w segWidth segHeight fwdir fhdir woff hoff
        zoff wsegsN hsegsN norm clr iy) msa) ms

/-- The doubly nested index-generation loop of AddPlane: for iy below hsegs and
ix below wsegs, run addPlaneIdxStep. -/
def addPlaneIdxLoop (wsegs1 idxSt wsegsN hsegsN : ℕ) (ms : MeshBase) :
    MeshBase :=
  (List.range hsegsN).foldl (fun msa iy =>
    (List.range wsegsN).foldl (addPlaneIdxStep wsegs1 idxSt iy) msa) ms

/-- MeshBase.AddPlane (src/unnamed/part_001:356): append a regular grid of
vertices, normals and texture coordinates (and colors when clr is non-nil),
followed by two triangles worth of indices per grid cell. -/
def MeshBase.AddPlane (ms : MeshBase) (waxis haxis : Dims) (wdir hdir : ℤ)
    (width height woff hoff zoff : F32) (wsegs hsegs : ℤ) (clr : GiSpec.Color) :
    MeshBase :=
  let idxSt := ms.Vtx.length / 3
  let w : Dims :=
    if (waxis = Dims.X ∧ haxis = Dims.Y) ∨ (waxis = Dims.Y ∧ haxis = Dims.X) then Dims.Z
    else if (waxis = Dims.X ∧ haxis = Dims.Z) ∨ (waxis = Dims.Z ∧ haxis = Dims.X) then Dims.Y
    else if (waxis = Dims.Z ∧ haxis = Dims.Y) ∨ (waxis = Dims.Y ∧ haxis = Dims.Z) then Dims.X
    else Dims.Z
  let wsegsN : ℕ := (max wsegs 1).toNat
  let hsegsN : ℕ := (max hsegs 1).toNat
  let norm : Vec3 :=
    if zoff > 0 then (Vec3.mk 0 0 0).setDim w 1 else (Vec3.mk 0 0 0).setDim w (-1)
  let wsegs1 := wsegsN + 1
  let hsegs1 := hsegsN + 1
  let segWidth := width / (wsegsN : ℚ)
  let segHeight := height / (hsegsN : ℚ)
  let fwdir : ℚ := (wdir : ℚ)
  let fhdir : ℚ := (hdir : ℚ)
  let woff := if wdir < 0 then width + woff else woff
  let hoff := if hdir < 0 then height + hoff else hoff
  -- generate the plane vertices, norms, and uv coordinates
  let ms1 := addPlaneVtxLoop waxis haxis w segWidth segHeight fwdir fhdir woff
    hoff zoff wsegsN hsegsN norm clr wsegs1 hsegs1 ms
  -- generate the indices
  addPlaneIdxLoop wsegs1 idxSt wsegsN hsegsN ms1

/-! ## Style resolution (src/style.go) -/

/-- units.Value (units package, external collaborator): a value, its unit name,
and the cached dots (raw pixel) form. -/
structure UnitsValue where
  val : F32
  un : String
  dots : F32
deriving DecidableEq, Repr

/-- The value stored in one walked style field, at the granularity reflect
kinds are distinguished by StyleField. -/
inductive FieldVal where
  | colorV (c : GiSpec.Color)
  | unitsV (v : UnitsValue)
  | structV
  | intV (n : ℤ)
  | floatV (q : ℚ)
  | boolV (b : Bool)
  | strV (s : String)
deriving DecidableEq, Repr

/-- The reflect-level shape of a style field, as StyleField dispatches on it:
the two struct types it can set, other structs, int kinds (registered enum or
not), and every remaining kind, which reaches the final direct vf.Set path. -/
inductive FieldKind where
  | colorField
  | unitsField
  | otherStruct
  | enumIntField (enumName : String)
  | plainIntField
  | directSetField
deriving DecidableEq, Repr

/-- A property-map value (spec section 6: string keys to loosely typed values):
a string, a numeric value (Go ints and floats, convertible to float64), a
pre-built units.Value or Color, or any other value. -/
inductive PropVal where
  | strV (s : String)
  | numV (q : ℚ)
  | unitsVal (v : UnitsValue)
  | colorVal (c : GiSpec.Color)
  | otherVal
deriving DecidableEq, Repr

/-- A property map: string keys to loosely typed values. -/
abbrev Props := List (String × PropVal)

/-- Go map lookup props[tag]. -/
def lookupProp (props : Props) (tag : String) : Option PropVal :=
  match props with
  | [] => none
  | (k, v) :: rest => if k = tag then some v else lookupProp rest tag

/-- Modelled from the spec: CSS property parsing into typed values is a
black-box conversion (spec section 1); Color.SetFromString recognises color
names and fails (returning an error, field untouched) otherwise. -/
def colorFromString (s : String) : Option GiSpec.Color :=
  if s = "black" then some ⟨0, 0, 0, 255⟩
  else if s = "white" then some ⟨255, 255, 255, 255⟩
  else if s = "red" then some ⟨255, 0, 0, 255⟩
  else none

/-- Modelled from the spec: units.Value.SetFromString parses a number with a
unit suffix (black-box conversion, spec section 1); a malformed string leaves
the value unchanged. -/
def unitsSetFromString (old : UnitsValue) (s : String) : UnitsValue :=
  if s.endsWith "px" then
    match (s.dropRight 2).toNat? with
    | some n => { old with val := (n : ℚ), un := "px" }
    | none => old
  else none.getD old

/-- Modelled from the spec: the ki.Enums registry (type metadata registry,
spec section 6) resolves lowercased alt strings for registered enum types;
an unrecognised name resolves to nothing and the field is left unchanged. -/
def enumFromAltString (enumName s : String) : Option ℤ :=
  if enumName = "BorderDrawStyle" then
    match ["solid", "dotted", "dashed", "double", "groove", "ridge", "inset",
        "outset", "none", "hidden"].findIdx? (fun x => x = s) with
    | some i => some (i : ℤ)
    | none => none
  else none

/-- StyleField (src/style.go:287): process one walked style field.  vf is the
field's current value; pf and df are the parent's and type-default's
corresponding fields (an invalid reflect.Value is modelled as none); hasPar
mirrors the `parent != nil` flag WalkStyleStruct passes.  reflect panics are
modelled as explicit GoPanic errors.  The final direct-set branch converts the
property value to reflect.TypeOf(vt) — the runtime type of the reflect.Type
value itself, not the field's type — so no ordinary property value is
convertible and that branch always panics. -/
def StyleField (kind : FieldKind) (inhTag : String) (vf : FieldVal)
    (pf df : Option FieldVal) (hasPar : Bool) (tag : String) (props : Props) :
    Except GoPanic FieldVal :=
  -- first process inherit flag (a bad inherit tag is only logged)
  let vf1 := if inhTag = "true" ∧ hasPar then pf.getD vf else vf
  match lookupProp props tag with
  | none => Except.ok vf1
  | some prv =>
    let prstr := match prv with
      | PropVal.strV s => s
      | _ => ""
    if prv = PropVal.strV "inherit" ∧ hasPar then
      Except.ok (pf.getD vf1)
    else if prv = PropVal.strV "initial" ∧ hasPar then
      match df with
      | some d => Except.ok d
      | none => Except.error GoPanic.zeroValueSet
    else
      match kind with
      | FieldKind.colorField =>
        match colorFromString prstr with
        | some c => Except.ok (FieldVal.colorV c)
        | none => Except.ok vf1
      | FieldKind.unitsField =>
        let old := match vf1 with
          | FieldVal.unitsV o => o
          | _ => UnitsValue.mk 0 "px" 0
        match prv with
        | PropVal.strV s => Except.ok (FieldVal.unitsV (unitsSetFromString old s))
        | PropVal.unitsVal v => Except.ok (FieldVal.unitsV v)
        | PropVal.numV q => Except.ok (FieldVal.unitsV { old with val := q, un := "px" })
        | _ => Except.error GoPanic.convertPanic
      | FieldKind.otherStruct => Except.ok vf1
      | FieldKind.enumIntField en =>
        match enumFromAltString en prstr with
        | some n => Except.ok (FieldVal.intV n)
        | none => Except.ok vf1
      | FieldKind.plainIntField => Except.ok vf1
      | FieldKind.directSetField => Except.error GoPanic.convertPanic

/-- One field entry of the flattened WalkStyleStruct traversal: the effective
xml tag, the inherit struct-tag value, the reflect kind, and the current value. -/
structure StyleEntry where
  tag : String
  inhTag : String
  kind : FieldKind
  val : FieldVal
deriving DecidableEq, Repr

/-- WalkStyleStruct (src/style.go:217), flattened: the fields reached by the
recursive struct walk are processed in order, the parent's and default's
corresponding field sitting at the same position of their own walks (the walk
nils out a parent of a different type, so positions always agree). -/
def walkStyleFields (i : ℕ) (entries : List StyleEntry)
    (parent defs : Option (List FieldVal)) (props : Props) :
    Except GoPanic (List FieldVal) :=
  match entries with
  | [] => Except.ok []
  | e :: rest =>
    match StyleField e.kind e.inhTag e.val (parent.bind fun l => l[i]?)
        (defs.bind fun l => l[i]?) parent.isSome e.tag props with
    | Except.error p => Except.error p
    | Except.ok v =>
      match walkStyleFields (i + 1) rest parent defs props with
      | Except.error p => Except.error p
      | Except.ok vs => Except.ok (v :: vs)

deriving instance DecidableEq for Except

/-- Style.SetStyle (src/style.go:168): apply a property map to the style's
walked fields, inheriting from the parent style and consulting the default
style for "initial". -/
def SetStyle (entries : List StyleEntry) (parent defs : Option (List FieldVal))
    (props : Props) : Except GoPanic (List FieldVal) :=
  walkStyleFields 0 entries parent defs props

/-! ## Widget tree: layout, move, render passes (src/unnamed/part_000) -/

/-- image.Point. -/
structure Pt where
  x : ℤ
  y : ℤ
deriving DecidableEq, Repr

/-- gi.Vec2D, a float32 2-vector. -/
structure Vec2D where
  x : F32
  y : F32
deriving DecidableEq, Repr

/-- Vec2D.Add. -/
def Vec2D.add (a b : Vec2D) : Vec2D := ⟨a.x + b.x, a.y + b.y⟩

/-- Vec2D.AddVal: add a scalar to both components. -/
def Vec2D.addVal (a : Vec2D) (v : F32) : Vec2D := ⟨a.x + v, a.y + v⟩

/-- gi.NewVec2DFmPoint. -/
def NewVec2DFmPoint (p : Pt) : Vec2D := ⟨(p.x : ℚ), (p.y : ℚ)⟩

/-- gi.Vec2DZero. -/
def Vec2DZero : Vec2D := ⟨0, 0⟩

/-- image.Rectangle, flattened to its four coordinates. -/
structure Rect where
  minX : ℤ
  minY : ℤ
  maxX : ℤ
  maxY : ℤ
deriving DecidableEq, Repr

/-- image.Rectangle.Empty. -/
def Rect.Empty (r : Rect) : Bool := r.minX ≥ r.maxX || r.minY ≥ r.maxY

/-- image.Rectangle.Add: translate by a point. -/
def Rect.add (r : Rect) (p : Pt) : Rect :=
  ⟨r.minX + p.x, r.minY + p.y, r.maxX + p.x, r.maxY + p.y⟩

/-- image.ZR, the zero rectangle. -/
def RectZero : Rect := ⟨0, 0, 0, 0⟩

/-- image.Rectangle.Intersect: componentwise max of mins and min of maxs, the
zero rectangle when the result is empty. -/
def Rect.intersect (r s : Rect) : Rect :=
  let t : Rect := ⟨max r.minX s.minX, max r.minY s.minY,
    min r.maxX s.maxX, min r.maxY s.maxY⟩
  if t.Empty then RectZero else t

/-- A Go float-to-int conversion truncates toward zero. -/
def goInt (q : ℚ) : ℤ := if q < 0 then Rat.ceil q else Rat.floor q

/-- Modelled from the spec: gi.RectFromPosSize is not under src; per spec
section 4.2 step 5 the bounding box is rectangle(AllocPos, AllocSize), with the
position floored and the size ceiled to cover the allocated pixels. -/
def RectFromPosSize (pos sz : Vec2D) : Rect :=
  ⟨Rat.floor pos.x, Rat.floor pos.y,
    Rat.floor pos.x + Rat.ceil sz.x, Rat.floor pos.y + Rat.ceil sz.y⟩

/-- LayoutData (spec section 3): allocated position and size, the relative
offset from the parent, the original-position baseline fixed at layout time,
and the preferred size collected by the Size pass (LayData.Size.Pref). -/
structure LayoutData where
  allocPos : Vec2D
  allocPosRel : Vec2D
  allocPosOrig : Vec2D
  allocSize : Vec2D
  sizePref : Vec2D
deriving DecidableEq, Repr

/-- The per-node state the modelled passes read and write: the live layout
data; the style-derived layout baseline that LayData.SetFromStyle resets to
(the output of the node's style resolution, kept abstract here); the cached
raw and viewport-clipped bounding boxes; the needs-full-rerender, overlay and
ki-field flags; the style box-model inset Sty.BoxSpace(); the number of
connected input-event bindings; and the viewport connection mark. -/
structure WData where
  layData : LayoutData
  styLayData : LayoutData
  bbox : Rect
  vpBBox : Rect
  needsFullReRender : Bool
  overlay : Bool
  isField : Bool
  boxSpace : F32
  events : ℕ
  vpConnected : Bool
deriving DecidableEq, Repr

mutual
/-- A widget node: its data, an optional Parts sub-tree (PartsWidgetBase owns
one; plain WidgetBase nodes have none), and its ordered children. -/
inductive WTree where
  | node (d : WData) (parts : WParts) (kids : WForest)

/-- The optional Parts sub-tree of a widget. -/
inductive WParts where
  | noParts
  | withParts (t : WTree)

/-- An ordered list of child widgets (paint order is list order). -/
inductive WForest where
  | nilF
  | consF (t : WTree) (ts : WForest)
end

/-- The node's own data. -/
def WTree.dat : WTree → WData
  | WTree.node d _ _ => d

/-- The node's LayData. -/
def WTree.rootLayData (t : WTree) : LayoutData := t.dat.layData

/-- Overwrite the node's own LayData (the restore step of ReRender2DTree). -/
def WTree.setRootLayData : WTree → LayoutData → WTree
  | WTree.node d p k, ld => WTree.node { d with layData := ld } p k

/-- ClearFullReRender on this node (bitflag clear). -/
def WTree.clearFullReRender : WTree → WTree
  | WTree.node d p k => WTree.node { d with needsFullReRender := false } p k

mutual
/-- Apply a data transformation to every node of the subtree, Parts fields
included (the ki FuncDownMeFirst traversal, which operates automatically on
field structs such as Parts). -/
def mapTree (f : WData → WData) : WTree → WTree
  | WTree.node d p k => WTree.node (f d) (mapParts f p) (mapKids f k)

def mapParts (f : WData → WData) : WParts → WParts
  | WParts.noParts => WParts.noParts
  | WParts.withParts t => WParts.withParts (mapTree f t)

def mapKids (f : WData → WData) : WForest → WForest
  | WForest.nilF => WForest.nilF
  | WForest.consF t ts => WForest.consF (mapTree f t) (mapKids f ts)
end

mutual
/-- Number of nodes in a subtree (Parts trees included). -/
def sizeT : WTree → ℕ
  | WTree.node _ p k => 1 + sizeP p + sizeF k

def sizeP : WParts → ℕ
  | WParts.noParts => 0
  | WParts.withParts t => 1 + sizeT t

def sizeF : WForest → ℕ
  | WForest.nilF => 0
  | WForest.consF t ts => 1 + sizeT t + sizeF ts
end

mutual
/-- Number of nodes with the needs-full-rerender flag set in a subtree. -/
def flagCount : WTree → ℕ
  | WTree.node d p k =>
    (if d.needsFullReRender then 1 else 0) + flagCountP p + flagCountF k

def flagCountP : WParts → ℕ
  | WParts.noParts => 0
  | WParts.withParts t => flagCount t

def flagCountF : WForest → ℕ
  | WForest.nilF => 0
  | WForest.consF t ts => flagCount t + flagCountF ts
end

mutual
/-- Total number of connected input-event bindings in a subtree. -/
def eventsCount : WTree → ℕ
  | WTree.node d p k => d.events + eventsCountP p + eventsCountF k

def eventsCountP : WParts → ℕ
  | WParts.noParts => 0
  | WParts.withParts t => eventsCount t

def eventsCountF : WForest → ℕ
  | WForest.nilF => 0
  | WForest.consF t ts => eventsCount t + eventsCountF ts
end

mutual
/-- All node data of a subtree, in traversal order. -/
def allNodes : WTree → List WData
  | WTree.node d p k => d :: (allNodesP p ++ allNodesF k)

def allNodesP : WParts → List WData
  | WParts.noParts => []
  | WParts.withParts t => allNodes t

def allNodesF : WForest → List WData
  | WForest.nilF => []
  | WForest.consF t ts => allNodes t ++ allNodesF ts
end

/-- Init2D / Init2DWidget (src): bind to the ancestor viewport and connect to
it; style and layout defaults do not overwrite existing values, so the modelled
node state is otherwise unchanged. -/
def initNode (d : WData) : WData := { d with vpConnected := true }

/-- Modelled from the spec: Init2DTree is not under src; the Init pass runs
Init2D over the subtree. -/
def Init2DTree : WTree → WTree := mapTree initNode

/-- Style2D / Style2DWidget (src): resolve the style snapshot and reset the
LayData from it (g.LayData.SetFromStyle, "also does reset"); only the LayData
effect is visible in the modelled node state, the field-level resolution being
modelled separately by SetStyle. -/
def styleNode (d : WData) : WData := { d with layData := d.styLayData }

/-- Modelled from the spec: Style2DTree is not under src; the Style pass runs
Style2D over the subtree. -/
def Style2DTree : WTree → WTree := mapTree styleNode

/-- Size2DBase / InitLayout2D (src): reset LayData from the style. -/
def size2DBase (d : WData) : WData := { d with layData := d.styLayData }

/-- PartsWidgetBase.Size2DParts (src): InitLayout2D, then SizeFromParts
(AllocSize from the Parts preferred size) and Size2DAddSpace (add twice the
box space). -/
def size2DPartsNode (d : WData) (pt : WTree) : WData :=
  let d1 := { d with layData := d.styLayData }
  { d1 with layData := { d1.layData with
      allocSize := pt.dat.layData.sizePref.addVal (2 * d.boxSpace) } }

mutual
/-- Modelled from the spec: Size2DTree is not under src; the Size pass computes
preferred sizes bottom-up (spec section 3), dispatching Size2D to the parts
variant on parts widgets. -/
def Size2DTree : WTree → WTree
  | WTree.node d p k =>
    let p2 := sizeParts p
    let k2 := sizeKids k
    match p2 with
    | WParts.noParts => WTree.node (size2DBase d) p2 k2
    | WParts.withParts pt => WTree.node (size2DPartsNode d pt) p2 k2

def sizeParts : WParts → WParts
  | WParts.noParts => WParts.noParts
  | WParts.withParts t => WParts.withParts (Size2DTree t)

def sizeKids : WForest → WForest
  | WForest.nilF => WForest.nilF
  | WForest.consF t ts => WForest.consF (Size2DTree t) (sizeKids ts)
end

/-- ChildrenBBox2DWidget (src): the box-model inset of the viewport bbox by
int(Sty.BoxSpace()). -/
def childrenBBox2DWidget (d : WData) : Rect :=
  let spc := goInt d.boxSpace
  ⟨d.vpBBox.minX + spc, d.vpBBox.minY + spc,
    d.vpBBox.maxX - spc, d.vpBBox.maxY - spc⟩

/-- Modelled from the spec: ComputeBBox2DBase is not under src; per spec
section 4.2 step 5 the viewport bbox is the node's (translated) bbox
intersected into the parent bbox.  (The window bbox adds only a constant
window offset and is not tracked.) -/
def computeBBox2DBase (parBBox : Rect) (delta : Pt) (d : WData) : WData :=
  { d with vpBBox := Rect.intersect parBBox (d.bbox.add delta) }

/-- AddParentPos (src): cache the absolute position from the parent widget's
position plus our relative offset; ki field nodes (the Parts tree) keep the
position assigned by their owner; returns the parent allocated size. -/
def addParentPos (parAlloc : Option LayoutData) (d : WData) : WData × Vec2D :=
  match parAlloc with
  | some pl =>
    (if d.isField then d
     else { d with layData :=
        { d.layData with allocPos := pl.allocPos.add d.layData.allocPosRel } },
     pl.allocSize)
  | none => (d, Vec2DZero)

/-- Layout2DBase (src): AddParentPos, snapshot AllocPosOrig, update the style
unit context (no modelled state), compute BBox from the allocation, and
ComputeBBox2D against the parent bbox.  For parts widgets the
ComputeBBox2DParts recomputation of the Parts root is immediately redone from
scratch by the Parts sub-tree's own Layout2D in Layout2DParts, so the model
folds the two. -/
def layout2DBaseData (parAlloc : Option LayoutData) (parBBox : Rect)
    (d : WData) : WData :=
  let d1 := (addParentPos parAlloc d).1
  let d2 := { d1 with layData :=
    { d1.layData with allocPosOrig := d1.layData.allocPos } }
  let d3 := { d2 with
    bbox := RectFromPosSize d2.layData.allocPos d2.layData.allocSize }
  computeBBox2DBase parBBox ⟨0, 0⟩ d3

mutual
/-- Layout2D (src): Layout2DBase, then Layout2DParts on parts widgets, then
Layout2DChildren against this node's content bbox.  The preset argument models
Layout2DParts having stored AllocPos/AllocSize into the (field) node just
before its layout. -/
def Layout2D (parAlloc : Option LayoutData) (parBBox : Rect)
    (preset : Option (Vec2D × Vec2D)) : WTree → WTree
  | WTree.node d p k =>
    let d0 := match preset with
      | none => d
      | some pr => { d with layData :=
          { d.layData with allocPos := pr.1, allocSize := pr.2 } }
    let d1 := layout2DBaseData parAlloc parBBox d0
    let p1 := layoutParts d1 parBBox p
    let k1 := layoutKids d1 k
    WTree.node d1 p1 k1

/-- PartsWidgetBase.Layout2DParts (src): place the Parts box at our position
inset by the box space, sized to our allocation minus twice the box space, and
lay it out against the same parent bbox. -/
def layoutParts (d1 : WData) (parBBox : Rect) : WParts → WParts
  | WParts.noParts => WParts.noParts
  | WParts.withParts pt =>
    WParts.withParts (Layout2D (some d1.layData) parBBox
      (some (d1.layData.allocPos.addVal d1.boxSpace,
        d1.layData.allocSize.addVal (-(2 * d1.boxSpace)))) pt)

/-- Modelled from the spec: Layout2DChildren is not under src; children are
laid out against this node's content-area bbox (spec section 4.2 step 6). -/
def layoutKids (d1 : WData) : WForest → WForest
  | WForest.nilF => WForest.nilF
  | WForest.consF t ts =>
    WForest.consF (Layout2D (some d1.layData) (childrenBBox2DWidget d1) none t)
      (layoutKids d1 ts)
end

mutual
/-- Move2D (src): Move2DBase sets AllocPos to AllocPosOrig plus the delta and
recomputes the bbox via ComputeBBox2D without resizing; PartsWidgetBase.Move2D
additionally moves the Parts tree with the same delta and parent bbox; then
Move2DChildren moves each child by the same delta.  (The ComputeBBox2DParts
recomputation of the Parts root equals what the Parts tree's own Move2DBase
recomputes, so the model folds the two.) -/
def Move2D (delta : Pt) (parBBox : Rect) : WTree → WTree
  | WTree.node d p k =>
    let d1 := computeBBox2DBase parBBox delta { d with layData :=
      { d.layData with
        allocPos := d.layData.allocPosOrig.add (NewVec2DFmPoint delta) } }
    let p1 := moveParts delta parBBox p
    let k1 := moveKids delta (childrenBBox2DWidget d1) k
    WTree.node d1 p1 k1

def moveParts (delta : Pt) (parBBox : Rect) : WParts → WParts
  | WParts.noParts => WParts.noParts
  | WParts.withParts pt => WParts.withParts (Move2D delta parBBox pt)

/-- Modelled from the spec: Move2DChildren is not under src; each child is
moved by the same delta within this node's content bbox (spec section 4.2,
"propagate the same delta to children/parts"). -/
def moveKids (delta : Pt) (cbb : Rect) : WForest → WForest
  | WForest.nilF => WForest.nilF
  | WForest.consF t ts => WForest.consF (Move2D delta cbb t) (moveKids delta cbb ts)
end

/-- Modelled from the spec: DisconnectAllEvents is not under src; per spec
section 4.3 an empty-bbox render disconnects all input-event bindings for the
subtree. -/
def disconnectAllEventsTree : WTree → WTree :=
  mapTree (fun d => { d with events := 0 })

/-! ### Size and flag preservation of the passes -/

mutual
theorem sizeT_map (f : WData → WData) (t : WTree) :
    sizeT (mapTree f t) = sizeT t := by
  cases t with
  | node d p k => simp [mapTree, sizeT, sizeP_map f p, sizeF_map f k]

theorem sizeP_map (f : WData → WData) (p : WParts) :
    sizeP (mapParts f p) = sizeP p := by
  cases p with
  | noParts => rfl
  | withParts t => simp [mapParts, sizeP, sizeT_map f t]

theorem sizeF_map (f : WData → WData) (k : WForest) :
    sizeF (mapKids f k) = sizeF k := by
  cases k with
  | nilF => rfl
  | consF t ts => simp [mapKids, sizeF, sizeT_map f t, sizeF_map f ts]
end

mutual
theorem flag_map (f : WData → WData)
    (hf : ∀ d, (f d).needsFullReRender = d.needsFullReRender) (t : WTree) :
    flagCount (mapTree f t) = flagCount t := by
  cases t with
  | node d p k =>
    simp [mapTree, flagCount, hf d, flagP_map f hf p, flagF_map f hf k]

theorem flagP_map (f : WData → WData)
    (hf : ∀ d, (f d).needsFullReRender = d.needsFullReRender) (p : WParts) :
    flagCountP (mapParts f p) = flagCountP p := by
  cases p with
  | noParts => rfl
  | withParts t => simp [mapParts, flagCountP, flag_map f hf t]

theorem flagF_map (f : WData → WData)
    (hf : ∀ d, (f d).needsFullReRender = d.needsFullReRender) (k : WForest) :
    flagCountF (mapKids f k) = flagCountF k := by
  cases k with
  | nilF => rfl
  | consF t ts => simp [mapKids, flagCountF, flag_map f hf t, flagF_map f hf ts]
end

mutual
theorem sizeT_size2D (t : WTree) : sizeT (Size2DTree t) = sizeT t := by
  cases t with
  | node d p k =>
    cases p with
    | noParts => simp [Size2DTree, sizeParts, sizeT, sizeF_sizeKids k]
    | withParts pt =>
      simp [Size2DTree, sizeParts, sizeT, sizeP, sizeT_size2D pt,
        sizeF_sizeKids k]

theorem sizeF_sizeKids (k : WForest) : sizeF (sizeKids k) = sizeF k := by
  cases k with
  | nilF => rfl
  | consF t ts => simp [sizeKids, sizeF, sizeT_size2D t, sizeF_sizeKids ts]
end

mutual
theorem flag_size2D (t : WTree) : flagCount (Size2DTree t) = flagCount t := by
  cases t with
  | node d p k =>
    cases p with
    | noParts =>
      simp [Size2DTree, sizeParts, flagCount, size2DBase, flagF_sizeKids k]
    | withParts pt =>
      simp [Size2DTree, sizeParts, flagCount, flagCountP, size2DPartsNode,
        flag_size2D pt, flagF_sizeKids k]

theorem flagF_sizeKids (k : WForest) : flagCountF (sizeKids k) = flagCountF k := by
  cases k with
  | nilF => rfl
  | consF t ts => simp [sizeKids, flagCountF, flag_size2D t, flagF_sizeKids ts]
end

theorem layout2DBaseData_flag (pa : Option LayoutData) (pb : Rect) (d : WData) :
    (layout2DBaseData pa pb d).needsFullReRender = d.needsFullReRender := by
  cases pa <;> simp [layout2DBaseData, computeBBox2DBase, addParentPos] <;>
    split <;> rfl

mutual
theorem sizeT_layout (pa : Option LayoutData) (pb : Rect)
    (pre : Option (Vec2D × Vec2D)) (t : WTree) :
    sizeT (Layout2D pa pb pre t) = sizeT t := by
  cases t with
  | node d p k =>
    simp [Layout2D, sizeT, sizeP_layoutParts, sizeF_layoutKids]

theorem sizeP_layoutParts (d1 : WData) (pb : Rect) (p : WParts) :
    sizeP (layoutParts d1 pb p) = sizeP p := by
  cases p with
  | noParts => rfl
  | withParts pt => simp [layoutParts, sizeP, sizeT_layout]

theorem sizeF_layoutKids (d1 : WData) (k : WForest) :
    sizeF (layoutKids d1 k) = sizeF k := by
  cases k with
  | nilF => rfl
  | consF t ts => simp [layoutKids, sizeF, sizeT_layout, sizeF_layoutKids d1 ts]
end

mutual
theorem flag_layout (pa : Option LayoutData) (pb : Rect)
    (pre : Option (Vec2D × Vec2D)) (t : WTree) :
    flagCount (Layout2D pa pb pre t) = flagCount t := by
  cases t with
  | node d p k =>
    have hd0 : ∀ d0 : WData, (match pre with
        | none => d0
        | some pr => { d0 with layData :=
            { d0.layData with allocPos := pr.1, allocSize := pr.2 } } :
          WData).needsFullReRender = d0.needsFullReRender := by
      intro d0; cases pre <;> rfl
    simp [Layout2D, flagCount, layout2DBaseData_flag, hd0,
      flagP_layoutParts, flagF_layoutKids]

theorem flagP_layoutParts (d1 : WData) (pb : Rect) (p : WParts) :
    flagCountP (layoutParts d1 pb p) = flagCountP p := by
  cases p with
  | noParts => rfl
  | withParts pt => simp [layoutParts, flagCountP, flag_layout]

theorem flagF_layoutKids (d1 : WData) (k : WForest) :
    flagCountF (layoutKids d1 k) = flagCountF k := by
  cases k with
  | nilF => rfl
  | consF t ts =>
    simp [layoutKids, flagCountF, flag_layout, flagF_layoutKids d1 ts]
end

theorem sizeT_setRoot (t : WTree) (ld : LayoutData) :
    sizeT (t.setRootLayData ld) = sizeT t := by
  cases t; rfl

theorem flag_setRoot (t : WTree) (ld : LayoutData) :
    flagCount (t.setRootLayData ld) = flagCount t := by
  cases t; rfl

theorem sizeT_clear (t : WTree) : sizeT t.clearFullReRender = sizeT t := by
  cases t; rfl

theorem rootLayData_clear (t : WTree) :
    t.clearFullReRender.rootLayData = t.rootLayData := by
  cases t; rfl

/-! ### Render pass -/

/-- A recorded operation on the abstract drawing surface (spec section 6:
push/pop clip-bounds with stack discipline). -/
inductive ROp where
  | pushBoundsOp (r : Rect)
  | popBoundsOp
deriving DecidableEq, Repr

/-- The render state: the clip-bounds stack, plus a cumulative trace of the
surface operations performed. -/
structure RState where
  boundsStack : List Rect
  trace : List ROp
deriving DecidableEq, Repr

/-- RenderState.PushBounds. -/
def RState.pushBounds (rs : RState) (r : Rect) : RState :=
  ⟨r :: rs.boundsStack, rs.trace ++ [ROp.pushBoundsOp r]⟩

/-- RenderState.PopBounds. -/
def RState.popBounds (rs : RState) : RState :=
  ⟨rs.boundsStack.tail, rs.trace ++ [ROp.popBoundsOp]⟩

/-- The ambient context a node's render and re-layout need from outside the
subtree: the parent widget's layout data (none at a root), the parent bbox,
and the viewport's pixel bounds (used by overlays; the viewport is assumed
bound). -/
structure RCtx where
  parAlloc : Option LayoutData
  parBBox : Rect
  vpPixels : Rect
deriving Repr

/-- Modelled from the spec: the context a child sees — children are laid out
and clipped against this node's content-area bbox (spec section 4.2 step 6). -/
def kidCtx (ctx : RCtx) (d1 : WData) : RCtx :=
  ⟨some d1.layData, childrenBBox2DWidget d1, ctx.vpPixels⟩

/-- The pre-render portion of ReRender2DTree (src): save our current layout
data, run Init2DTree, Style2DTree and Size2DTree over the subtree, restore the
saved LayData, and run the Layout pass (Layout2DTree launches Layout2D with
the parent context; UpdateStart/UpdateEndNoSig only manage update
signalling). -/
def reRenderPasses (ctx : RCtx) (t : WTree) : WTree :=
  let ld := t.rootLayData
  let t1 := Init2DTree t
  let t2 := Style2DTree t1
  let t3 := Size2DTree t2
  let t4 := t3.setRootLayData ld
  Layout2D ctx.parAlloc ctx.parBBox none t4

theorem sizeT_reRenderPasses (ctx : RCtx) (t : WTree) :
    sizeT (reRenderPasses ctx t) = sizeT t := by
  simp [reRenderPasses, Init2DTree, Style2DTree, sizeT_layout, sizeT_setRoot,
    sizeT_size2D, sizeT_map]

theorem flag_reRenderPasses (ctx : RCtx) (t : WTree) :
    flagCount (reRenderPasses ctx t) = flagCount t := by
  simp [reRenderPasses, Init2DTree, Style2DTree, flag_layout, flag_setRoot,
    flag_size2D, flag_map initNode (fun d => rfl), flag_map styleNode (fun d => rfl)]

mutual
/-- Render2D (src): FullReRenderIfNeeded — when the cached viewport bbox is
non-empty and the needs-full-rerender flag is set, clear the flag and run
ReRender2DTree (inlined here as the passes followed by the recursive render);
otherwise PushBounds — an overlay clears the flag and clips to the whole
viewport surface, an empty bbox clears the flag, paints nothing and
disconnects all input events for the subtree, and a non-empty bbox pushes the
cached bbox, connects to the viewport, renders the children in order, and
PopBounds clears the flag and pops the clip. -/
def Render2D (ctx : RCtx) (t : WTree) (rs : RState) : WTree × RState :=
  match t with
  | WTree.node d p k =>
    if h : !d.vpBBox.Empty && d.needsFullReRender then
      Render2D ctx
        (reRenderPasses ctx (WTree.node d p k).clearFullReRender) rs
    else if d.overlay then
      let d1 := { d with needsFullReRender := false, vpConnected := true }
      let rs1 := rs.pushBounds ctx.vpPixels
      let res := renderKids (kidCtx ctx d1) k rs1
      (WTree.node { d1 with needsFullReRender := false } p res.1,
        res.2.popBounds)
    else if d.vpBBox.Empty then
      (disconnectAllEventsTree
        (WTree.node { d with needsFullReRender := false } p k), rs)
    else
      let d1 := { d with vpConnected := true }
      let rs1 := rs.pushBounds d.vpBBox
      let res := renderKids (kidCtx ctx d1) k rs1
      (WTree.node { d1 with needsFullReRender := false } p res.1,
        res.2.popBounds)
termination_by flagCount t + sizeT t
decreasing_by
  · rw [flag_reRenderPasses, sizeT_reRenderPasses, sizeT_clear]
    have hd : d.needsFullReRender = true := by
      simp only [Bool.and_eq_true] at h
      exact h.2
    simp [WTree.clearFullReRender, flagCount, sizeT, hd]
  · simp [flagCount, sizeT]
    omega
  · simp [flagCount, sizeT]
    omega

/-- Render2DChildren (ki traversal, modelled from the spec): render the
children in child-list order, threading the render state. -/
def renderKids (ctx : RCtx) (k : WForest) (rs : RState) : WForest × RState :=
  match k with
  | WForest.nilF => (WForest.nilF, rs)
  | WForest.consF t ts =>
    let res1 := Render2D ctx t rs
    let res2 := renderKids ctx ts res1.2
    (WForest.consF res1.1 res2.1, res2.2)
termination_by flagCountF k + sizeF k
decreasing_by
  · simp [flagCountF, sizeF]
    omega
  · simp [flagCountF, sizeF]
    omega
end

/-- ReRender2DTree (src): the saved-layout re-pass (Init, Style, Size with the
LayData restored before Layout) followed by the render pass (Render2DTree runs
Render2D at the subtree root, modelled from the spec). -/
def ReRender2DTree (ctx : RCtx) (t : WTree) (rs : RState) : WTree × RState :=
  Render2D ctx (reRenderPasses ctx t) rs

/-! ### Mesh theorems -/

/-- C2: Validate() returns an error exactly when the vertex count (len(Vtx)/3)
is zero, or the normal count (len(Norm)/3) differs from the vertex count, or
the texcoord count (len(TexUV)/2) differs from the vertex count, or colors are
present (nonzero color count len(Color)/4) and the color count differs from the
vertex count; it returns nil otherwise. -/
theorem validate_error_iff (ms : MeshBase) :
    ms.Validate ≠ none ↔
      (ms.Vtx.length / 3 = 0 ∨ ms.Norm.length / 3 ≠ ms.Vtx.length / 3
        ∨ ms.TexUV.length / 2 ≠ ms.Vtx.length / 3
        ∨ (ms.Color.length / 4 ≠ 0 ∧ ms.Color.length / 4 ≠ ms.Vtx.length / 3)) := by
  simp only [MeshBase.Validate]
  split_ifs <;> simp_all

/-- C10: a mesh with no per-vertex colors is never reported transparent,
regardless of the Trans flag. -/
theorem isTransparent_no_color (ms : MeshBase) (h : ms.Color.length = 0) :
    ms.IsTransparent = false := by
  simp [MeshBase.IsTransparent, MeshBase.HasColor, h]

/-- A concrete colorless mesh whose Trans flag is nevertheless set. -/
def transNoColorMesh : MeshBase :=
  ⟨"m", false, true, [0, 0, 0], [0, 0, 1], [0, 0], [0, 1, 2], [], none⟩

/-- Witness for C10: the colorless mesh with Trans set is not transparent. -/
theorem isTransparent_no_color_witness :
    transNoColorMesh.Color.length = 0 ∧ transNoColorMesh.IsTransparent = false :=
  ⟨rfl, isTransparent_no_color transNoColorMesh rfl⟩

/-- A mesh with no vertices that was never built (Buff is nil). -/
def invalidMesh : MeshBase := ⟨"bad", false, false, [], [], [], [], [], none⟩

/-- C8 (code bug): Activate on a never-built mesh that fails Validate triggers
MakeVectors, whose error is discarded leaving Buff nil, and the subsequent
Buff.Activate() call through the nil interface panics instead of merely
preventing the mesh from drawing. -/
theorem activate_invalid_mesh_panics :
    invalidMesh.Validate = some (MeshErr.noVerticies "bad")
  ∧ invalidMesh.Activate = Except.error GoPanic.nilInterfaceDeref :=
  ⟨rfl, rfl⟩

/-- A fold whose step increases a numeric projection by a constant increases it
by the constant times the list length. -/
theorem foldl_proj_add {σ : Type} (p : σ → ℕ) (g : σ → ℕ → σ) (a : ℕ)
    (h : ∀ s i, p (g s i) = p s + a) (l : List ℕ) :
    ∀ s : σ, p (List.foldl g s l) = p s + a * l.length := by
  induction l with
  | nil => intro s; simp
  | cons hd tl ih =>
    intro s
    simp only [List.foldl_cons, List.length_cons, ih, h]
    ring

/-- Length effect of one vertex-generation step: 3 vertex floats, 3 normal
floats, 2 uv floats, no indices, and 4 color floats when clr is non-nil. -/
theorem addPlaneVtxStep_lengths (waxis haxis w : Dims)
    (segWidth segHeight fwdir fhdir woff hoff zoff : F32) (wsegsN hsegsN : ℕ)
    (norm : Vec3) (clr : GiSpec.Color) (iy : ℕ) (msb : MeshBase) (ix : ℕ) :
    (addPlaneVtxStep waxis haxis w segWidth segHeight fwdir fhdir woff hoff
        zoff wsegsN hsegsN norm clr iy msb ix).Vtx.length = msb.Vtx.length + 3
  ∧ (addPlaneVtxStep waxis haxis w segWidth segHeight fwdir fhdir woff hoff
        zoff wsegsN hsegsN norm clr iy msb ix).Norm.length = msb.Norm.length + 3
  ∧ (addPlaneVtxStep waxis haxis w segWidth segHeight fwdir fhdir woff hoff
        zoff wsegsN hsegsN norm clr iy msb ix).TexUV.length = msb.TexUV.length + 2
  ∧ (addPlaneVtxStep waxis haxis w segWidth segHeight fwdir fhdir woff hoff
        zoff wsegsN hsegsN norm clr iy msb ix).Idx.length = msb.Idx.length := by
  by_cases hc : clr.IsNil <;> simp [addPlaneVtxStep, hc]

/-- Length effect of one index-generation step: 6 index entries, no floats. -/
theorem addPlaneIdxStep_lengths (wsegs1 idxSt iy : ℕ) (msb : MeshBase) (ix : ℕ) :
    (addPlaneIdxStep wsegs1 idxSt iy msb ix).Idx.length = msb.Idx.length + 6
  ∧ (addPlaneIdxStep wsegs1 idxSt iy msb ix).Vtx.length = msb.Vtx.length
  ∧ (addPlaneIdxStep wsegs1 idxSt iy msb ix).Norm.length = msb.Norm.length
  ∧ (addPlaneIdxStep wsegs1 idxSt iy msb ix).TexUV.length = msb.TexUV.length := by
  simp [addPlaneIdxStep]

/-- A nested fold whose inner step increases a numeric projection by a constant
increases it by the constant times both loop lengths. -/
theorem foldl_foldl_proj_add {σ : Type} (p : σ → ℕ) (g : ℕ → σ → ℕ → σ) (a : ℕ)
    (h : ∀ iy s ix, p (g iy s ix) = p s + a) (lin lout : List ℕ) (s : σ) :
    p (List.foldl (fun sa iy => List.foldl (g iy) sa lin) s lout)
      = p s + a * lin.length * lout.length := by
  have hrow : ∀ s iy, p (List.foldl (g iy) s lin) = p s + a * lin.length :=
    fun s iy => foldl_proj_add p (g iy) a (h iy) lin s
  calc p (List.foldl (fun sa iy => List.foldl (g iy) sa lin) s lout)
      = p s + a * lin.length * lout.length := by
        rw [foldl_proj_add p _ (a * lin.length) hrow lout s, mul_assoc]

/-- Length effects of the whole vertex-generation loop. -/
theorem addPlaneVtxLoop_lengths (waxis haxis w : Dims)
    (segWidth segHeight fwdir fhdir woff hoff zoff : F32) (wsegsN hsegsN : ℕ)
    (norm : Vec3) (clr : GiSpec.Color) (wsegs1 hsegs1 : ℕ) (ms : MeshBase) :
    (addPlaneVtxLoop waxis haxis w segWidth segHeight fwdir fhdir woff hoff
        zoff wsegsN hsegsN norm clr wsegs1 hsegs1 ms).Vtx.length
        = ms.Vtx.length + 3 * wsegs1 * hsegs1
  ∧ (addPlaneVtxLoop waxis haxis w segWidth segHeight fwdir fhdir woff hoff
        zoff wsegsN hsegsN norm clr wsegs1 hsegs1 ms).Norm.length
        = ms.Norm.length + 3 * wsegs1 * hsegs1
  ∧ (addPlaneVtxLoop waxis haxis w segWidth segHeight fwdir fhdir woff hoff
        zoff wsegsN hsegsN norm clr wsegs1 hsegs1 ms).TexUV.length
        = ms.TexUV.length + 2 * wsegs1 * hsegs1
  ∧ (addPlaneVtxLoop waxis haxis w segWidth segHeight fwdir fhdir woff hoff
        zoff wsegsN hsegsN norm clr wsegs1 hsegs1 ms).Idx.length
        = ms.Idx.length := by
  unfold addPlaneVtxLoop
  refine ⟨?_, ?_, ?_, ?_⟩
  · simpa using foldl_foldl_proj_add (fun m => m.Vtx.length) _ 3
      (fun iy s ix => (addPlaneVtxStep_lengths waxis haxis w segWidth segHeight
        fwdir fhdir woff hoff zoff wsegsN hsegsN norm clr iy s ix).1)
      (List.range wsegs1) (List.range hsegs1) ms
  · simpa using foldl_foldl_proj_add (fun m => m.Norm.length) _ 3
      (fun iy s ix => (addPlaneVtxStep_lengths waxis haxis w segWidth segHeight
        fwdir fhdir woff hoff zoff wsegsN hsegsN norm clr iy s ix).2.1)
      (List.range wsegs1) (List.range hsegs1) ms
  · simpa using foldl_foldl_proj_add (fun m => m.TexUV.length) _ 2
      (fun iy s ix => (addPlaneVtxStep_lengths waxis haxis w segWidth segHeight
        fwdir fhdir woff hoff zoff wsegsN hsegsN norm clr iy s ix).2.2.1)
      (List.range wsegs1) (List.range hsegs1) ms
  · simpa using foldl_foldl_proj_add (fun m => m.Idx.length) _ 0
      (fun iy s ix => by
        simpa using (addPlaneVtxStep_lengths waxis haxis w segWidth segHeight
          fwdir fhdir woff hoff zoff wsegsN hsegsN norm clr iy s ix).2.2.2)
      (List.range wsegs1) (List.range hsegs1) ms

/-- Length effects of the whole index-generation loop. -/
theorem addPlaneIdxLoop_lengths (wsegs1 idxSt wsegsN hsegsN : ℕ)
    (ms : MeshBase) :
    (addPlaneIdxLoop wsegs1 idxSt wsegsN hsegsN ms).Idx.length
        = ms.Idx.length + 6 * wsegsN * hsegsN
  ∧ (addPlaneIdxLoop wsegs1 idxSt wsegsN hsegsN ms).Vtx.length = ms.Vtx.length
  ∧ (addPlaneIdxLoop wsegs1 idxSt wsegsN hsegsN ms).Norm.length = ms.Norm.length
  ∧ (addPlaneIdxLoop wsegs1 idxSt wsegsN hsegsN ms).TexUV.length
        = ms.TexUV.length := by
  unfold addPlaneIdxLoop
  refine ⟨?_, ?_, ?_, ?_⟩
  · simpa using foldl_foldl_proj_add (fun m => m.Idx.length) _ 6
      (fun iy s ix => (addPlaneIdxStep_lengths wsegs1 idxSt iy s ix).1)
      (List.range wsegsN) (List.range hsegsN) ms
  · simpa using foldl_foldl_proj_add (fun m => m.Vtx.length) _ 0
      (fun iy s ix => by
        simpa using (addPlaneIdxStep_lengths wsegs1 idxSt iy s ix).2.1)
      (List.range wsegsN) (List.range hsegsN) ms
  · simpa using foldl_foldl_proj_add (fun m => m.Norm.length) _ 0
      (fun iy s ix => by
        simpa using (addPlaneIdxStep_lengths wsegs1 idxSt iy s ix).2.2.1)
      (List.range wsegsN) (List.range hsegsN) ms
  · simpa using foldl_foldl_proj_add (fun m => m.TexUV.length) _ 0
      (fun iy s ix => by
        simpa using (addPlaneIdxStep_lengths wsegs1 idxSt iy s ix).2.2.2)
      (List.range wsegsN) (List.range hsegsN) ms

/-- The clamped segment count is nonnegative as an integer. -/
theorem max_one_toNat (z : ℤ) : ((max z 1).toNat : ℤ) = max z 1 :=
  Int.toNat_of_nonneg (le_trans one_pos.le (le_max_right z 1))

/-- C7: PlaneSize(wsegs, hsegs) equals (max(wsegs,1)+1)*(max(hsegs,1)+1), and
AddPlane appends exactly that many vertices (and normals and texcoords) and
exactly 6*max(wsegs,1)*max(hsegs,1) index entries to the mesh arrays. -/
theorem planeSize_addPlane_counts (ms : MeshBase) (waxis haxis : Dims)
    (wdir hdir : ℤ) (width height woff hoff zoff : F32) (wsegs hsegs : ℤ)
    (clr : GiSpec.Color) :
    ms.PlaneSize wsegs hsegs = (max wsegs 1 + 1) * (max hsegs 1 + 1)
  ∧ (ms.AddPlane waxis haxis wdir hdir width height woff hoff zoff wsegs hsegs
        clr).Vtx.length = ms.Vtx.length + 3 * (ms.PlaneSize wsegs hsegs).toNat
  ∧ (ms.AddPlane waxis haxis wdir hdir width height woff hoff zoff wsegs hsegs
        clr).Norm.length = ms.Norm.length + 3 * (ms.PlaneSize wsegs hsegs).toNat
  ∧ (ms.AddPlane waxis haxis wdir hdir width height woff hoff zoff wsegs hsegs
        clr).TexUV.length = ms.TexUV.length + 2 * (ms.PlaneSize wsegs hsegs).toNat
  ∧ (ms.AddPlane waxis haxis wdir hdir width height woff hoff zoff wsegs hsegs
        clr).Idx.length
      = ms.Idx.length + 6 * (max wsegs 1).toNat * (max hsegs 1).toNat := by
  have hps : (ms.PlaneSize wsegs hsegs).toNat
      = ((max wsegs 1).toNat + 1) * ((max hsegs 1).toNat + 1) := by
    have hw := max_one_toNat wsegs
    have hh := max_one_toNat hsegs
    simp only [MeshBase.PlaneSize]
    rw [← hw, ← hh]
    norm_cast
  refine ⟨rfl, ?_, ?_, ?_, ?_⟩
  all_goals simp only [MeshBase.AddPlane, hps, addPlaneIdxLoop_lengths,
    addPlaneVtxLoop_lengths]
  all_goals try ring


/-! ### Style theorems -/

/-- Positional form of the inheritance guarantee for the walk, at any starting
index. -/
theorem walkStyleFields_inherits (entries : List StyleEntry)
    (pvals : List FieldVal) (defs : Option (List FieldVal)) (props : Props) :
    ∀ (j : ℕ) (res : List FieldVal),
      walkStyleFields j entries (some pvals) defs props = Except.ok res →
      ∀ (i : ℕ) (e : StyleEntry) (p : FieldVal),
        entries[i]? = some e → e.inhTag = "true" →
        lookupProp props e.tag = none → pvals[j + i]? = some p →
        res[i]? = some p := by
  induction entries with
  | nil =>
    intro j res _ i e p he _ _ _
    simp at he
  | cons e0 rest ih =>
    intro j res hwalk i e p he hinh hprop hp
    simp only [walkStyleFields] at hwalk
    cases hsf : StyleField e0.kind e0.inhTag e0.val
        ((some pvals).bind fun l => l[j]?) (defs.bind fun l => l[j]?)
        (some pvals).isSome e0.tag props with
    | error q => rw [hsf] at hwalk; exact absurd hwalk (by simp)
    | ok v =>
      rw [hsf] at hwalk
      cases hrest : walkStyleFields (j + 1) rest (some pvals) defs props with
      | error q => rw [hrest] at hwalk; exact absurd hwalk (by simp)
      | ok vs =>
        rw [hrest] at hwalk
        simp only [Except.ok.injEq] at hwalk
        subst hwalk
        cases i with
        | zero =>
          simp only [List.getElem?_cons_zero, Option.some.injEq] at he
          subst he
          simp only [Nat.add_zero] at hp
          simp [StyleField, hinh, hp, hprop] at hsf
          simp [hsf]
        | succ k =>
          simp only [List.getElem?_cons_succ] at he
          have := ih (j + 1) vs hrest k e p he hinh hprop
            (by rw [show j + 1 + k = j + (k + 1) from by omega]; exact hp)
          simpa using this

/-- C5: for every style field tagged inheritable (inherit:"true"), if the
node's property map does not override that field, then after SetStyle the
resolved field value equals the parent's resolved field value. -/
theorem setStyle_inherits (entries : List StyleEntry) (pvals : List FieldVal)
    (defs : Option (List FieldVal)) (props : Props) (res : List FieldVal)
    (i : ℕ) (e : StyleEntry) (p : FieldVal)
    (hres : SetStyle entries (some pvals) defs props = Except.ok res)
    (he : entries[i]? = some e) (hinh : e.inhTag = "true")
    (hprop : lookupProp props e.tag = none) (hp : pvals[i]? = some p) :
    res[i]? = some p :=
  walkStyleFields_inherits entries pvals defs props 0 res hres i e p he hinh
    hprop (by simpa using hp)

/-- Witness for C5: a one-field style (an inheritable color field, no property
override) resolves to the parent's red. -/
theorem setStyle_inherits_witness :
    ([FieldVal.colorV ⟨255, 0, 0, 255⟩] : List FieldVal)[0]?
      = some (FieldVal.colorV ⟨255, 0, 0, 255⟩) :=
  setStyle_inherits
    [StyleEntry.mk "color" "true" FieldKind.colorField (FieldVal.colorV ⟨0, 0, 0, 255⟩)]
    [FieldVal.colorV ⟨255, 0, 0, 255⟩] none []
    [FieldVal.colorV ⟨255, 0, 0, 255⟩] 0
    (StyleEntry.mk "color" "true" FieldKind.colorField (FieldVal.colorV ⟨0, 0, 0, 255⟩))
    (FieldVal.colorV ⟨255, 0, 0, 255⟩)
    (by decide) (by decide) (by decide) (by decide) (by decide)

/-- C6 counterexample: an "initial" keyword entry with a type-default style
supplied but no parent style leaves the field at its prior value instead of
copying the type default — both keyword handlers are gated on a parent being
present. -/
theorem styleField_initial_no_parent_counterexample :
    StyleField FieldKind.colorField "" (FieldVal.colorV ⟨0, 0, 0, 255⟩) none
        (some (FieldVal.colorV ⟨255, 0, 0, 255⟩)) false "color"
        [("color", PropVal.strV "initial")]
      = Except.ok (FieldVal.colorV ⟨0, 0, 0, 255⟩)
  ∧ FieldVal.colorV ⟨0, 0, 0, 255⟩ ≠ FieldVal.colorV ⟨255, 0, 0, 255⟩ := by
  constructor
  · decide
  · decide

/-- C6 (amended): when a parent style is present, a property-map entry with the
string value "inherit" sets the field to the parent's value and an entry with
"initial" sets it to the type-default value, for every field kind and inherit
tag, overriding the normal precedence of instance properties. -/
theorem styleField_keyword_override (kind : FieldKind) (inhTag : String)
    (vf p d : FieldVal) (tag : String) (props : Props) :
    (lookupProp props tag = some (PropVal.strV "inherit") →
      StyleField kind inhTag vf (some p) (some d) true tag props = Except.ok p)
  ∧ (lookupProp props tag = some (PropVal.strV "initial") →
      StyleField kind inhTag vf (some p) (some d) true tag props
        = Except.ok d) := by
  constructor
  · intro h
    simp [StyleField, h]
  · intro h
    simp [StyleField, h]

/-- Witness for C6 (amended): with a parent present, "inherit" copies the
parent's white and "initial" copies the default's red, on a color field whose
prior value is black. -/
theorem styleField_keyword_override_witness :
    StyleField FieldKind.colorField "" (FieldVal.colorV ⟨0, 0, 0, 255⟩)
        (some (FieldVal.colorV ⟨255, 255, 255, 255⟩))
        (some (FieldVal.colorV ⟨255, 0, 0, 255⟩)) true "color"
        [("color", PropVal.strV "inherit")]
      = Except.ok (FieldVal.colorV ⟨255, 255, 255, 255⟩)
  ∧ StyleField FieldKind.colorField "" (FieldVal.colorV ⟨0, 0, 0, 255⟩)
        (some (FieldVal.colorV ⟨255, 255, 255, 255⟩))
        (some (FieldVal.colorV ⟨255, 0, 0, 255⟩)) true "color"
        [("color", PropVal.strV "initial")]
      = Except.ok (FieldVal.colorV ⟨255, 0, 0, 255⟩) :=
  ⟨(styleField_keyword_override FieldKind.colorField ""
      (FieldVal.colorV ⟨0, 0, 0, 255⟩) (FieldVal.colorV ⟨255, 255, 255, 255⟩)
      (FieldVal.colorV ⟨255, 0, 0, 255⟩) "color"
      [("color", PropVal.strV "inherit")]).1 (by decide),
   (styleField_keyword_override FieldKind.colorField ""
      (FieldVal.colorV ⟨0, 0, 0, 255⟩) (FieldVal.colorV ⟨255, 255, 255, 255⟩)
      (FieldVal.colorV ⟨255, 0, 0, 255⟩) "color"
      [("color", PropVal.strV "initial")]).2 (by decide)⟩

/-- C9 (code bug): StyleField panics instead of logging and skipping — a
units.Value field given a non-numeric, non-string value hits the reflect
Convert-to-float64 panic, and every direct-set field (float, bool, string)
panics on any property value because the Convert target is
reflect.TypeOf(vt), the runtime type of the reflect.Type value itself. -/
theorem styleField_convert_panics :
    StyleField FieldKind.unitsField "" (FieldVal.unitsV ⟨0, "px", 0⟩) none none
        false "padding" [("padding", PropVal.colorVal ⟨9, 9, 9, 255⟩)]
      = Except.error GoPanic.convertPanic
  ∧ StyleField FieldKind.directSetField "" (FieldVal.floatV 1) none none false
        "opacity" [("opacity", PropVal.numV (1 / 2))]
      = Except.error GoPanic.convertPanic := by
  constructor
  · decide
  · decide


/-! ### Widget theorems -/

mutual
theorem moveAux (delta : Pt) (parBBox : Rect) (t : WTree) :
    (allNodes (Move2D delta parBBox t)).map (fun d => d.layData.allocPos)
      = (allNodes t).map (fun d => d.layData.allocPosOrig.add (NewVec2DFmPoint delta))
  ∧ (allNodes (Move2D delta parBBox t)).map (fun d => d.layData.allocPosOrig)
      = (allNodes t).map (fun d => d.layData.allocPosOrig)
  ∧ (allNodes (Move2D delta parBBox t)).map (fun d => d.layData.allocSize)
      = (allNodes t).map (fun d => d.layData.allocSize) := by
  cases t with
  | node d p k =>
    refine ⟨?_, ?_, ?_⟩
    · simp only [Move2D, allNodes, List.map_cons, List.map_append]
      rw [(moveAuxP delta parBBox p).1, (moveAuxF delta _ k).1]
      simp [computeBBox2DBase]
    · simp only [Move2D, allNodes, List.map_cons, List.map_append]
      rw [(moveAuxP delta parBBox p).2.1, (moveAuxF delta _ k).2.1]
      simp [computeBBox2DBase]
    · simp only [Move2D, allNodes, List.map_cons, List.map_append]
      rw [(moveAuxP delta parBBox p).2.2, (moveAuxF delta _ k).2.2]
      simp [computeBBox2DBase]

theorem moveAuxP (delta : Pt) (parBBox : Rect) (p : WParts) :
    (allNodesP (moveParts delta parBBox p)).map (fun d => d.layData.allocPos)
      = (allNodesP p).map (fun d => d.layData.allocPosOrig.add (NewVec2DFmPoint delta))
  ∧ (allNodesP (moveParts delta parBBox p)).map (fun d => d.layData.allocPosOrig)
      = (allNodesP p).map (fun d => d.layData.allocPosOrig)
  ∧ (allNodesP (moveParts delta parBBox p)).map (fun d => d.layData.allocSize)
      = (allNodesP p).map (fun d => d.layData.allocSize) := by
  cases p with
  | noParts => exact ⟨rfl, rfl, rfl⟩
  | withParts pt =>
    have ht := moveAux delta parBBox pt
    exact ⟨by simpa [moveParts, allNodesP] using ht.1,
      by simpa [moveParts, allNodesP] using ht.2.1,
      by simpa [moveParts, allNodesP] using ht.2.2⟩

theorem moveAuxF (delta : Pt) (cbb : Rect) (k : WForest) :
    (allNodesF (moveKids delta cbb k)).map (fun d => d.layData.allocPos)
      = (allNodesF k).map (fun d => d.layData.allocPosOrig.add (NewVec2DFmPoint delta))
  ∧ (allNodesF (moveKids delta cbb k)).map (fun d => d.layData.allocPosOrig)
      = (allNodesF k).map (fun d => d.layData.allocPosOrig)
  ∧ (allNodesF (moveKids delta cbb k)).map (fun d => d.layData.allocSize)
      = (allNodesF k).map (fun d => d.layData.allocSize) := by
  cases k with
  | nilF => exact ⟨rfl, rfl, rfl⟩
  | consF t ts =>
    have ht := moveAux delta cbb t
    have hts := moveAuxF delta cbb ts
    refine ⟨?_, ?_, ?_⟩ <;>
      simp [moveKids, allNodesF, ht.1, ht.2.1, ht.2.2, hts.1, hts.2.1, hts.2.2]
end

/-- C3: after Move2D(delta, parBBox), every node of the subtree (the node
itself, its Parts tree and all children) has AllocPos equal to AllocPosOrig
plus delta, with AllocPosOrig and AllocSize unchanged everywhere. -/
theorem move2D_shifts (delta : Pt) (parBBox : Rect) (t : WTree) :
    (allNodes (Move2D delta parBBox t)).map (fun d => d.layData.allocPos)
      = (allNodes t).map (fun d => d.layData.allocPosOrig.add (NewVec2DFmPoint delta))
  ∧ (allNodes (Move2D delta parBBox t)).map (fun d => d.layData.allocPosOrig)
      = (allNodes t).map (fun d => d.layData.allocPosOrig)
  ∧ (allNodes (Move2D delta parBBox t)).map (fun d => d.layData.allocSize)
      = (allNodes t).map (fun d => d.layData.allocSize) :=
  moveAux delta parBBox t

mutual
theorem eventsDiscT (t : WTree) :
    eventsCount (mapTree (fun d => { d with events := 0 }) t) = 0 := by
  cases t with
  | node d p k =>
    simp [mapTree, eventsCount, eventsDiscP p, eventsDiscF k]

theorem eventsDiscP (p : WParts) :
    eventsCountP (mapParts (fun d => { d with events := 0 }) p) = 0 := by
  cases p with
  | noParts => rfl
  | withParts t => simp [mapParts, eventsCountP, eventsDiscT t]

theorem eventsDiscF (k : WForest) :
    eventsCountF (mapKids (fun d => { d with events := 0 }) k) = 0 := by
  cases k with
  | nilF => rfl
  | consF t ts => simp [mapKids, eventsCountF, eventsDiscT t, eventsDiscF ts]
end

/-- C4: for a non-overlay node whose cached viewport bbox is empty at render
time, Render2D performs no surface operation at all (no clip push, no
drawing — the render state is returned unchanged) and disconnects all
input-event bindings of the subtree, leaving zero active bindings. -/
theorem render2D_empty_bbox (ctx : RCtx) (t : WTree) (rs : RState)
    (hov : t.dat.overlay = false) (hbb : t.dat.vpBBox.Empty = true) :
    (Render2D ctx t rs).2 = rs ∧ eventsCount (Render2D ctx t rs).1 = 0 := by
  cases t with
  | node d p k =>
    simp only [WTree.dat] at hov hbb
    rw [Render2D]
    simp [hov, hbb, disconnectAllEventsTree, eventsDiscT]

/-- A concrete empty-bbox node with three connected event bindings and a
child. -/
def c4LayData : LayoutData := ⟨⟨2, 2⟩, ⟨2, 2⟩, ⟨0, 0⟩, ⟨5, 5⟩, ⟨0, 0⟩⟩

def c4Kid : WTree :=
  WTree.node ⟨c4LayData, c4LayData, ⟨0, 0, 4, 4⟩, ⟨0, 0, 4, 4⟩, false, false,
    false, 0, 2, false⟩ WParts.noParts WForest.nilF

def c4Tree : WTree :=
  WTree.node ⟨c4LayData, c4LayData, ⟨0, 0, 0, 0⟩, RectZero, false, false,
    false, 0, 3, false⟩ WParts.noParts (WForest.consF c4Kid WForest.nilF)

def c4Ctx : RCtx := ⟨none, ⟨0, 0, 100, 100⟩, ⟨0, 0, 100, 100⟩⟩

/-- Witness for C4: rendering the empty-bbox node leaves the render state
untouched and zeroes the subtree's event bindings. -/
theorem render2D_empty_bbox_witness :
    (Render2D c4Ctx c4Tree ⟨[], []⟩).2 = ⟨[], []⟩
  ∧ eventsCount (Render2D c4Ctx c4Tree ⟨[], []⟩).1 = 0 :=
  render2D_empty_bbox c4Ctx c4Tree ⟨[], []⟩ rfl (by decide)

theorem render2D_rootflag_aux :
    ∀ (n : ℕ) (ctx : RCtx) (t : WTree) (rs : RState),
      flagCount t + sizeT t ≤ n →
      ((Render2D ctx t rs).1).dat.needsFullReRender = false := by
  intro n
  induction n with
  | zero =>
    intro ctx t rs hle
    cases t with
    | node d p k =>
      simp [sizeT] at hle
  | succ n ih =>
    intro ctx t rs hle
    cases t with
    | node d p k =>
      rw [Render2D]
      by_cases hdirty : (!d.vpBBox.Empty && d.needsFullReRender) = true
      · rw [dif_pos hdirty]
        apply ih
        rw [flag_reRenderPasses, sizeT_reRenderPasses, sizeT_clear]
        have hd : d.needsFullReRender = true := by
          simp only [Bool.and_eq_true] at hdirty
          exact hdirty.2
        simp [WTree.clearFullReRender, flagCount, sizeT, hd] at hle ⊢
        omega
      · rw [dif_neg hdirty]
        by_cases hov : d.overlay = true
        · simp [hov, WTree.dat]
        · simp only [hov]
          by_cases hemp : d.vpBBox.Empty = true
          · simp [hemp, disconnectAllEventsTree, mapTree, WTree.dat]
          · simp [hemp, WTree.dat]

/-- The needs-full-rerender flag of the rendered node is always clear. -/
theorem render2D_rootflag (ctx : RCtx) (t : WTree) (rs : RState) :
    ((Render2D ctx t rs).1).dat.needsFullReRender = false :=
  render2D_rootflag_aux (flagCount t + sizeT t) ctx t rs le_rfl

/-- C1 (amended): when Render2D is called on a node whose needs-full-rerender
flag is set and whose cached viewport bbox is non-empty, the node clears the
flag and performs the full re-pass of ReRender2DTree — Init, Style and Size
over the subtree, the node's pre-existing LayoutData restored before the
Layout pass, then Render — and the rendered node's flag is clear. -/
theorem render2D_full_rerender (ctx : RCtx) (t : WTree) (rs : RState)
    (hflag : t.dat.needsFullReRender = true)
    (hbb : t.dat.vpBBox.Empty = false) :
    Render2D ctx t rs = ReRender2DTree ctx t.clearFullReRender rs
  ∧ ReRender2DTree ctx t.clearFullReRender rs
      = Render2D ctx
          (Layout2D ctx.parAlloc ctx.parBBox none
            ((Size2DTree (Style2DTree (Init2DTree
              t.clearFullReRender))).setRootLayData t.rootLayData)) rs
  ∧ ((Render2D ctx t rs).1).dat.needsFullReRender = false := by
  refine ⟨?_, ?_, render2D_rootflag ctx t rs⟩
  · cases t with
    | node d p k =>
      simp only [WTree.dat] at hflag hbb
      rw [Render2D]
      rw [dif_pos (by simp [hflag, hbb])]
      rw [ReRender2DTree]
  · rw [ReRender2DTree]
    simp [reRenderPasses, rootLayData_clear]

/-- A concrete dirty node with a non-empty cached viewport bbox. -/
def c1LayData : LayoutData := ⟨⟨1, 1⟩, ⟨1, 1⟩, ⟨0, 0⟩, ⟨10, 10⟩, ⟨0, 0⟩⟩

def c1Tree : WTree :=
  WTree.node ⟨c1LayData, ⟨⟨0, 0⟩, ⟨0, 0⟩, ⟨0, 0⟩, ⟨0, 0⟩, ⟨0, 0⟩⟩,
    ⟨0, 0, 5, 5⟩, ⟨0, 0, 5, 5⟩, true, false, false, 0, 1, false⟩
    WParts.noParts WForest.nilF

def c1Ctx : RCtx := ⟨none, ⟨0, 0, 100, 100⟩, ⟨0, 0, 100, 100⟩⟩

/-- Witness for C1: the dirty non-empty node renders exactly as the re-pass of
its flag-cleared self, with the flag clear afterwards. -/
theorem render2D_full_rerender_witness :
    c1Tree.dat.needsFullReRender = true
  ∧ c1Tree.dat.vpBBox.Empty = false
  ∧ (Render2D c1Ctx c1Tree ⟨[], []⟩
        = ReRender2DTree c1Ctx c1Tree.clearFullReRender ⟨[], []⟩
      ∧ ReRender2DTree c1Ctx c1Tree.clearFullReRender ⟨[], []⟩
          = Render2D c1Ctx
              (Layout2D c1Ctx.parAlloc c1Ctx.parBBox none
                ((Size2DTree (Style2DTree (Init2DTree
                  c1Tree.clearFullReRender))).setRootLayData
                  c1Tree.rootLayData)) ⟨[], []⟩
      ∧ ((Render2D c1Ctx c1Tree ⟨[], []⟩).1).dat.needsFullReRender = false) :=
  ⟨rfl, by decide, render2D_full_rerender c1Ctx c1Tree ⟨[], []⟩ rfl (by decide)⟩

/-- A concrete dirty node whose cached viewport bbox is empty. -/
def c1cTree : WTree :=
  WTree.node ⟨c1LayData, ⟨⟨0, 0⟩, ⟨0, 0⟩, ⟨0, 0⟩, ⟨0, 0⟩, ⟨0, 0⟩⟩,
    ⟨0, 0, 0, 0⟩, RectZero, true, false, false, 0, 3, false⟩
    WParts.noParts WForest.nilF

/-- The node state c1cTree reaches after the re-pass portion of
ReRender2DTree. -/
def c1cAfter : WData :=
  ⟨⟨⟨1, 1⟩, ⟨1, 1⟩, ⟨1, 1⟩, ⟨10, 10⟩, ⟨0, 0⟩⟩,
    ⟨⟨0, 0⟩, ⟨0, 0⟩, ⟨0, 0⟩, ⟨0, 0⟩, ⟨0, 0⟩⟩,
    ⟨1, 1, 11, 11⟩, ⟨1, 1, 11, 11⟩, false, false, false, 0, 3, true⟩

/-- C1 counterexample: Render2D called on a node with the dirty flag set but
an empty cached viewport bbox performs no re-pass at all (no surface
operation is recorded), although the re-pass the claim mandates would have
relaid the node out to a non-empty bbox and painted it. -/
theorem render2D_dirty_empty_counterexample :
    c1cTree.dat.needsFullReRender = true
  ∧ ((Render2D c1Ctx c1cTree ⟨[], []⟩).2).trace = []
  ∧ ((ReRender2DTree c1Ctx c1cTree.clearFullReRender ⟨[], []⟩).2).trace
      = [ROp.pushBoundsOp ⟨1, 1, 11, 11⟩, ROp.popBoundsOp] := by
  refine ⟨rfl, ?_, ?_⟩
  · rw [show c1cTree = WTree.node ⟨c1LayData,
        ⟨⟨0, 0⟩, ⟨0, 0⟩, ⟨0, 0⟩, ⟨0, 0⟩, ⟨0, 0⟩⟩, ⟨0, 0, 0, 0⟩, RectZero,
        true, false, false, 0, 3, false⟩ WParts.noParts WForest.nilF from rfl]
    rw [Render2D, dif_neg (by decide), if_neg (by decide), if_pos (by decide)]
  · rw [ReRender2DTree]
    rw [show reRenderPasses c1Ctx c1cTree.clearFullReRender
        = WTree.node c1cAfter WParts.noParts WForest.nilF from rfl]
    rw [Render2D, dif_neg (by decide), if_neg (by decide), if_neg (by decide)]
    simp [renderKids, RState.pushBounds, RState.popBounds, c1cAfter]

end GiSpec
